import Mathlib

/-!
Verification of the Asura-Security-Scan frontend logic: shallow embedding of
the scan-results page helpers (`src/frontend/src/lib/utils.js`,
`src/frontend/src/pages/SecurityResults.jsx`), the Metrics-page grade
helpers, and the axios API client with its retry interceptor.

JavaScript values that may be `null`/`undefined` are modelled as `Option`;
JavaScript strings as Lean `String` (with characterwise `jsToUpper` and
`jsToLower` standing for `toUpperCase`/`toLowerCase`); machine numbers as `Nat`.
-/

namespace Asura

/-- A vulnerability record as consumed by the frontend
(fields used in `utils.js` and `SecurityResults.jsx`). -/
structure Vulnerability where
  id : Option String
  severity : String
  vulnerability_type : String
  file_path : String
  line_number : Option Nat
  description : String
  tool : String
  cwe_id : Option String
  confidence : Option String
deriving DecidableEq, Repr

/-- A scan record as consumed by the frontend.  `none` models a JSON `null`
or an absent field. -/
structure Scan where
  id : Nat
  status : String
  started_at : String
  completed_at : Option String
  duration_seconds : Option Nat
  total_issues : Option Nat
  health_score : Option Nat
  ai_suggestions : Option String
  ai_model : Option String
  vulnerabilities : Option (List Vulnerability)
deriving DecidableEq, Repr

/-- JavaScript `toUpperCase` (ASCII range), acting characterwise. -/
def jsToUpper (s : String) : String := ⟨s.data.map Char.toUpper⟩

/-- JavaScript `toLowerCase` (ASCII range), acting characterwise. -/
def jsToLower (s : String) : String := ⟨s.data.map Char.toLower⟩

/-! ### Severity and status colors (`src/frontend/src/lib/utils.js`) -/

/-- Function `getSeverityColor` from `utils.js`: looks up the upper-cased severity in
a fixed five-entry map, falling back to the `INFO` entry
(`colors` lookup on the upper-cased key, with `|| colors.INFO`). -/
def getSeverityColor (severity : Option String) : String :=
  match severity with
  | none => "text-gray-600 bg-gray-50 border-gray-200"
  | some s =>
    let k := jsToUpper s
    if k = "CRITICAL" then "text-red-600 bg-red-50 border-red-200"
    else if k = "HIGH" then "text-orange-600 bg-orange-50 border-orange-200"
    else if k = "MEDIUM" then "text-yellow-600 bg-yellow-50 border-yellow-200"
    else if k = "LOW" then "text-blue-600 bg-blue-50 border-blue-200"
    else if k = "INFO" then "text-gray-600 bg-gray-50 border-gray-200"
    else "text-gray-600 bg-gray-50 border-gray-200"

/-- Function `getStatusColor` from `utils.js`: looks up the upper-cased status in a
fixed four-entry map, falling back to the `PENDING` entry
(`colors` lookup on the upper-cased key, with `|| colors.PENDING`). -/
def getStatusColor (status : Option String) : String :=
  match status with
  | none => "text-yellow-600 bg-yellow-50 border-yellow-200"
  | some s =>
    let k := jsToUpper s
    if k = "COMPLETED" then "text-green-600 bg-green-50 border-green-200"
    else if k = "RUNNING" then "text-blue-600 bg-blue-50 border-blue-200"
    else if k = "PENDING" then "text-yellow-600 bg-yellow-50 border-yellow-200"
    else if k = "FAILED" then "text-red-600 bg-red-50 border-red-200"
    else "text-yellow-600 bg-yellow-50 border-yellow-200"

/-! ### Metrics-page grade helpers (`getGradeColor`, `getGradeDescription`) -/

/-- One entry of the Metrics page's `descriptions` map. -/
structure GradeInfo where
  label : String
  text : String
  emoji : String
deriving DecidableEq, Repr

/-- Function `getGradeDescription` from the Metrics page: exact (case-sensitive)
lookup of the grade in a five-entry map, falling back to the `F` entry
(`descriptions[grade] || descriptions.F`). -/
def getGradeDescription (grade : Option String) : GradeInfo :=
  match grade with
  | none => ⟨"Critical", "Urgent action needed", "🚨"⟩
  | some g =>
    if g = "A" then ⟨"Excellent", "Outstanding code quality", "🎯"⟩
    else if g = "B" then ⟨"Good", "Solid code quality", "✨"⟩
    else if g = "C" then ⟨"Fair", "Needs improvement", "👍"⟩
    else if g = "D" then ⟨"Poor", "Significant issues", "⚠️"⟩
    else if g = "F" then ⟨"Critical", "Urgent action needed", "🚨"⟩
    else ⟨"Critical", "Urgent action needed", "🚨"⟩

/-- Function `getGradeColor` from the Metrics page: exact (case-sensitive) lookup of
the grade in a five-entry map, falling back to the `F` entry
(`colors[grade] || colors.F`). -/
def getGradeColor (grade : Option String) : String :=
  match grade with
  | none => "text-red-400 border-red-500/50 bg-red-500/10"
  | some g =>
    if g = "A" then "text-green-400 border-green-500/50 bg-green-500/10"
    else if g = "B" then "text-blue-400 border-blue-500/50 bg-blue-500/10"
    else if g = "C" then "text-yellow-400 border-yellow-500/50 bg-yellow-500/10"
    else if g = "D" then "text-orange-400 border-orange-500/50 bg-orange-500/10"
    else if g = "F" then "text-red-400 border-red-500/50 bg-red-500/10"
    else "text-red-400 border-red-500/50 bg-red-500/10"

/-! ### Polling effect (`SecurityResults.jsx`, second `useEffect`) -/

/-- The polling `useEffect` of `SecurityResults`: given the current scan
state (`none` while not yet loaded), the interval period the effect
installs, or `none` when it returns without installing one
(`if (!scan || scan.status === 'COMPLETED' || scan.status === 'FAILED') return`,
otherwise `setInterval(loadScanResults, 2000)`). -/
def pollingIntervalMs (scan : Option Scan) : Option Nat :=
  match scan with
  | none => none
  | some s =>
    if s.status = "COMPLETED" ∨ s.status = "FAILED" then none
    else some 2000

/-! ### Vulnerability filtering (`SecurityResults.jsx`, `filteredVulnerabilities`) -/

/-- Test `a.startsWith b` on character lists. -/
def startsWithL : List Char → List Char → Bool
  | _, [] => true
  | [], _ :: _ => false
  | a :: as, b :: bs => a == b && startsWithL as bs

/-- Test whether `b` occurs as a contiguous run inside `a` (character lists). -/
def containsSubL : List Char → List Char → Bool
  | [], sub => sub.isEmpty
  | a :: as, sub => startsWithL (a :: as) sub || containsSubL as sub

/-- JavaScript substring test `s.includes(sub)`: `sub` is a contiguous substring of `s`. -/
def jsIncludes (s sub : String) : Bool :=
  containsSubL s.toList sub.toList

/-- The filter predicate inside `filteredVulnerabilities`: severity filter
matches (`'ALL'` or exact), tool filter matches (`'ALL'` or exact), and the
search query is empty or a lower-cased substring of the vulnerability type,
file path or description. -/
def vulnMatches (filterSeverity filterTool searchQuery : String)
    (v : Vulnerability) : Bool :=
  let severityMatch := filterSeverity == "ALL" || v.severity == filterSeverity
  let toolMatch := filterTool == "ALL" || v.tool == filterTool
  let searchMatch := searchQuery == "" ||
    jsIncludes (jsToLower v.vulnerability_type) (jsToLower searchQuery) ||
    jsIncludes (jsToLower v.file_path) (jsToLower searchQuery) ||
    jsIncludes (jsToLower v.description) (jsToLower searchQuery)
  severityMatch && toolMatch && searchMatch

/-- Computation `filteredVulnerabilities` from `SecurityResults.jsx`: `[]` when
`scan?.vulnerabilities` is absent, otherwise the filter of the scan's
vulnerability list by `vulnMatches`. -/
def filteredVulnerabilities (scan : Option Scan)
    (filterSeverity filterTool searchQuery : String) : List Vulnerability :=
  match scan with
  | none => []
  | some s =>
    match s.vulnerabilities with
    | none => []
    | some vs => vs.filter (vulnMatches filterSeverity filterTool searchQuery)

/-! ### Health-score panel (`SecurityResults.jsx`) -/

/-- The render guard of the health-score panel:
`scan.health_score !== null && scan.status === 'COMPLETED'`. -/
def showHealthScorePanel (scan : Scan) : Bool :=
  scan.health_score.isSome && scan.status == "COMPLETED"

/-! ### Scan-summary CSV export (`utils.js`, `exportScanSummaryToCSV`) -/

/-- Count `scan.vulnerabilities?.filter(v => v.severity === sev).length || 0`. -/
def jsSevCount (vulns : Option (List Vulnerability)) (sev : String) : Nat :=
  match vulns with
  | none => 0
  | some vs => (vs.filter (fun v => v.severity == sev)).length

/-- The `data` row list built by `exportScanSummaryToCSV`, one inner list
per CSV row, every cell rendered to the string that is joined with commas.
`fmtDate` stands for the environment's `new Date(x).toLocaleString()`. -/
def exportScanSummaryData (fmtDate : String → String) (scan : Scan) :
    List (List String) :=
  [ ["Scan Summary"],
    [""],
    ["Field", "Value"],
    ["Scan ID", toString scan.id],
    ["Status", scan.status],
    ["Started At", fmtDate scan.started_at],
    ["Completed At", match scan.completed_at with
      | some c => fmtDate c
      | none => "N/A"],
    ["Duration (seconds)", match scan.duration_seconds with
      | some d => if d = 0 then "N/A" else toString d
      | none => "N/A"],
    ["Total Issues", toString (match scan.total_issues with
      | some t => t
      | none => 0)],
    [""],
    ["Severity Breakdown"],
    ["Critical", toString (jsSevCount scan.vulnerabilities "CRITICAL")],
    ["High", toString (jsSevCount scan.vulnerabilities "HIGH")],
    ["Medium", toString (jsSevCount scan.vulnerabilities "MEDIUM")],
    ["Low", toString (jsSevCount scan.vulnerabilities "LOW")] ]

/-- The CSV text: rows joined with commas, then with newlines. -/
def exportScanSummaryToCSV (fmtDate : String → String) (scan : Scan) : String :=
  String.intercalate "\n"
    ((exportScanSummaryData fmtDate scan).map (String.intercalate ","))

/-- Specification-side count: the number of vulnerabilities of the scan
whose severity is exactly `sev`, `0` when the list is absent. -/
def countSeverity (vulns : Option (List Vulnerability)) (sev : String) : Nat :=
  (vulns.getD []).countP (fun v => v.severity = sev)

/-! ### API client (`part_009`: axios instance, retry interceptor) -/

/-- The axios instance's default timeout, 30000 ms, set at `axios.create`. -/
def apiDefaultTimeoutMs : Nat := 30000

/-- Constant `MAX_RETRIES` in the API client. -/
def MAX_RETRIES : Nat := 3

/-- Constant `RETRY_DELAY` (ms) in the API client. -/
def RETRY_DELAY : Nat := 1000

/-- The part of an axios request config the retry logic reads and writes:
`__retryCount` (0 models the unset field). -/
structure RequestConfig where
  retryCount : Nat
deriving DecidableEq, Repr

/-- An HTTP response as seen by the interceptor. -/
structure HttpResponse where
  status : Nat
deriving DecidableEq, Repr

/-- An axios error: its request config, the response when one was received
(`none` for network errors and timeouts), and the error code string. -/
structure AxiosError where
  config : RequestConfig
  response : Option HttpResponse
  code : Option String
deriving DecidableEq, Repr

/-- Outcome of the error-handling path: the error is rejected to the
caller, or the request is re-issued with the new `__retryCount` after a
backoff delay in milliseconds. -/
inductive RetryDecision where
  | reject
  | retry (newRetryCount : Nat) (delayMs : Nat)
deriving DecidableEq, Repr

/-- The retry condition inside `retryRequest`:
`__retryCount < MAX_RETRIES && error.response?.status >= 500 &&
error.response?.status !== 501` (a missing response makes the `>= 500`
comparison false). -/
def shouldRetry (e : AxiosError) : Bool :=
  decide (e.config.retryCount < MAX_RETRIES) &&
  (match e.response with
   | some r => decide (500 ≤ r.status) && decide (r.status ≠ 501)
   | none => false)

/-- Function `retryRequest` from the API client: reject unless `shouldRetry`,
otherwise increment `__retryCount` and re-issue after an exponential
backoff of `RETRY_DELAY * 2 ^ (__retryCount - 1)` ms. -/
def retryRequest (e : AxiosError) : RetryDecision :=
  if shouldRetry e then
    let n := e.config.retryCount + 1
    RetryDecision.retry n (RETRY_DELAY * 2 ^ (n - 1))
  else RetryDecision.reject

/-- Condition `error.response?.status >= 500` as a boolean. -/
def respStatusGe500 (e : AxiosError) : Bool :=
  match e.response with
  | some r => decide (500 ≤ r.status)
  | none => false

/-- The response interceptor's error branch: response-less errors with code
`ECONNABORTED` or `ERR_NETWORK` are routed into `retryRequest`; errors with
a 5xx response are routed into `retryRequest`; everything else is
rejected. -/
def handleResponseError (e : AxiosError) : RetryDecision :=
  if e.response = none ∧
      (e.code = some "ECONNABORTED" ∨ e.code = some "ERR_NETWORK") then
    retryRequest e
  else if respStatusGe500 e then
    retryRequest e
  else RetryDecision.reject

/-! ### AI suggestions action (`SecurityResults.jsx`, `getAISuggestions`;
`part_009`, `scansApi.getAISuggestions`) -/

/-- JavaScript truthiness of an optional string: `undefined`/`null` and the
empty string are falsy. -/
def jsTruthyStr : Option String → Bool
  | none => false
  | some s => s ≠ ""

/-- The URL path built by `scansApi.getAISuggestions`. -/
def aiSuggestionsPath (id : String) : String :=
  "/scans/" ++ id ++ "/ai-suggestions"

/-- The per-request timeout passed by `scansApi.getAISuggestions`
(`{ timeout: 60000 }`). -/
def aiSuggestionsTimeoutMs : Nat := 60000

/-- Observable steps of the `getAISuggestions` handler. -/
inductive AIAction where
  | display (cached : Bool) (text : String)
  | post (path : String) (timeoutMs : Nat)
  | refetchScan (id : String)
deriving DecidableEq, Repr

/-- The action trace of `getAISuggestions`: when `scan.ai_suggestions` is
truthy, display the stored text with `cached: true` and return; otherwise
POST to `/scans/{id}/ai-suggestions` with a 60000 ms timeout and, when the
request succeeds, refresh the scan via `loadScanResults()`. -/
def getAISuggestionsTrace (scan : Scan) (scanId : String)
    (postSucceeds : Bool) : List AIAction :=
  if jsTruthyStr scan.ai_suggestions then
    [AIAction.display true (scan.ai_suggestions.getD "")]
  else if postSucceeds then
    [AIAction.post (aiSuggestionsPath scanId) aiSuggestionsTimeoutMs,
     AIAction.refetchScan scanId]
  else
    [AIAction.post (aiSuggestionsPath scanId) aiSuggestionsTimeoutMs]

/-! ### Sample data for witnesses -/

/-- A sample high-severity finding. -/
def sampleVuln : Vulnerability :=
  ⟨some "1", "HIGH", "SQL Injection", "app/db.py", some 10,
   "Possible SQL injection via string concat", "bandit", some "CWE-89",
   some "HIGH"⟩

/-- A sample low-severity finding. -/
def sampleVulnLow : Vulnerability :=
  ⟨some "2", "LOW", "Hardcoded Password", "app/config.py", some 3,
   "Hardcoded credential found", "semgrep", none, some "MEDIUM"⟩

/-- A sample scan still running. -/
def runningScan : Scan :=
  ⟨1, "RUNNING", "2024-01-01T10:00:00", none, none, some 2, none, none,
   none, some [sampleVuln, sampleVulnLow]⟩

/-- A sample completed scan with a cached AI report. -/
def completedScan : Scan :=
  ⟨2, "COMPLETED", "2024-01-01T10:00:00", some "2024-01-01T10:05:00",
   some 300, some 2, some 85, some "Fix the injection", some "llama3",
   some [sampleVuln, sampleVulnLow]⟩

/-! ### Theorems -/

/-- C7: `getStatusColor` is total with `PENDING` as default: every input is
rendered with one of exactly four fixed class strings keyed by the
upper-cased status; `null`/`undefined` and every status whose upper-casing
is outside {COMPLETED, RUNNING, PENDING, FAILED} get the PENDING styling,
and matching is case-insensitive. -/
theorem status_color_total (st : Option String) :
    (getStatusColor st = "text-green-600 bg-green-50 border-green-200" ∨
     getStatusColor st = "text-blue-600 bg-blue-50 border-blue-200" ∨
     getStatusColor st = "text-yellow-600 bg-yellow-50 border-yellow-200" ∨
     getStatusColor st = "text-red-600 bg-red-50 border-red-200") ∧
    (getStatusColor (some "COMPLETED")
        = "text-green-600 bg-green-50 border-green-200" ∧
     getStatusColor (some "RUNNING")
        = "text-blue-600 bg-blue-50 border-blue-200" ∧
     getStatusColor (some "PENDING")
        = "text-yellow-600 bg-yellow-50 border-yellow-200" ∧
     getStatusColor (some "FAILED")
        = "text-red-600 bg-red-50 border-red-200") ∧
    getStatusColor none = "text-yellow-600 bg-yellow-50 border-yellow-200" ∧
    (∀ s : String, st = some s →
      jsToUpper s ∉ (["COMPLETED", "RUNNING", "PENDING", "FAILED"] : List String) →
      getStatusColor st = "text-yellow-600 bg-yellow-50 border-yellow-200") ∧
    (∀ s t : String, jsToUpper s = jsToUpper t →
      getStatusColor (some s) = getStatusColor (some t)) := by
  refine ⟨?_, by decide, by decide, ?_, ?_⟩
  · cases st with
    | none => simp [getStatusColor]
    | some s =>
      simp only [getStatusColor]
      by_cases h1 : jsToUpper s = "COMPLETED"
      · simp [h1]
      by_cases h2 : jsToUpper s = "RUNNING"
      · simp [h2]
      by_cases h3 : jsToUpper s = "PENDING"
      · simp [h3]
      by_cases h4 : jsToUpper s = "FAILED"
      · simp [h4]
      simp [h1, h2, h3, h4]
  · intro s hs hmem
    subst hs
    simp only [List.mem_cons, List.not_mem_nil, or_false, not_or] at hmem
    obtain ⟨h1, h2, h3, h4⟩ := hmem
    simp [getStatusColor, h1, h2, h3, h4]
  · intro s t h
    simp only [getStatusColor]
    rw [h]

/-- C7 witness: concrete evaluations of `getStatusColor` obtained from
`status_color_total`. -/
theorem status_color_total_witness :
    getStatusColor (some "Queued")
      = "text-yellow-600 bg-yellow-50 border-yellow-200" ∧
    getStatusColor (some "completed")
      = getStatusColor (some "COMPLETED") := by
  refine ⟨?_, ?_⟩
  · exact (status_color_total (some "Queued")).2.2.2.1 "Queued" rfl (by decide)
  · exact (status_color_total (some "completed")).2.2.2.2 "completed"
      "COMPLETED" (by decide)

/-- C8: `getSeverityColor` is total with `INFO` as default: every input is
rendered with one of exactly five fixed class strings keyed by the
upper-cased severity; `null`/`undefined` and every severity whose
upper-casing is outside {CRITICAL, HIGH, MEDIUM, LOW, INFO} get the INFO
styling, and matching is case-insensitive. -/
theorem severity_color_total (sv : Option String) :
    (getSeverityColor sv = "text-red-600 bg-red-50 border-red-200" ∨
     getSeverityColor sv = "text-orange-600 bg-orange-50 border-orange-200" ∨
     getSeverityColor sv = "text-yellow-600 bg-yellow-50 border-yellow-200" ∨
     getSeverityColor sv = "text-blue-600 bg-blue-50 border-blue-200" ∨
     getSeverityColor sv = "text-gray-600 bg-gray-50 border-gray-200") ∧
    (getSeverityColor (some "CRITICAL")
        = "text-red-600 bg-red-50 border-red-200" ∧
     getSeverityColor (some "HIGH")
        = "text-orange-600 bg-orange-50 border-orange-200" ∧
     getSeverityColor (some "MEDIUM")
        = "text-yellow-600 bg-yellow-50 border-yellow-200" ∧
     getSeverityColor (some "LOW")
        = "text-blue-600 bg-blue-50 border-blue-200" ∧
     getSeverityColor (some "INFO")
        = "text-gray-600 bg-gray-50 border-gray-200") ∧
    getSeverityColor none = "text-gray-600 bg-gray-50 border-gray-200" ∧
    (∀ s : String, sv = some s →
      jsToUpper s ∉ (["CRITICAL", "HIGH", "MEDIUM", "LOW", "INFO"] : List String) →
      getSeverityColor sv = "text-gray-600 bg-gray-50 border-gray-200") ∧
    (∀ s t : String, jsToUpper s = jsToUpper t →
      getSeverityColor (some s) = getSeverityColor (some t)) := by
  refine ⟨?_, by decide, by decide, ?_, ?_⟩
  · cases sv with
    | none => simp [getSeverityColor]
    | some s =>
      simp only [getSeverityColor]
      by_cases h1 : jsToUpper s = "CRITICAL"
      · simp [h1]
      by_cases h2 : jsToUpper s = "HIGH"
      · simp [h2]
      by_cases h3 : jsToUpper s = "MEDIUM"
      · simp [h3]
      by_cases h4 : jsToUpper s = "LOW"
      · simp [h4]
      by_cases h5 : jsToUpper s = "INFO"
      · simp [h5]
      simp [h1, h2, h3, h4, h5]
  · intro s hs hmem
    subst hs
    simp only [List.mem_cons, List.not_mem_nil, or_false, not_or] at hmem
    obtain ⟨h1, h2, h3, h4, h5⟩ := hmem
    simp [getSeverityColor, h1, h2, h3, h4, h5]
  · intro s t h
    simp only [getSeverityColor]
    rw [h]

/-- C8 witness: concrete evaluations of `getSeverityColor` obtained from
`severity_color_total`. -/
theorem severity_color_total_witness :
    getSeverityColor (some "WARNING")
      = "text-gray-600 bg-gray-50 border-gray-200" ∧
    getSeverityColor (some "critical")
      = getSeverityColor (some "CRITICAL") := by
  refine ⟨?_, ?_⟩
  · exact (severity_color_total (some "WARNING")).2.2.2.1 "WARNING" rfl
      (by decide)
  · exact (severity_color_total (some "critical")).2.2.2.2 "critical"
      "CRITICAL" (by decide)

/-- C9: the health-score panel is rendered exactly when the scan's
`health_score` is not null and its status is exactly `COMPLETED`; pending,
running and failed scans never show a health score. -/
theorem health_score_panel_guard (s : Scan) :
    (showHealthScorePanel s = true ↔
      s.health_score ≠ none ∧ s.status = "COMPLETED") ∧
    (s.status = "PENDING" ∨ s.status = "RUNNING" ∨ s.status = "FAILED" →
      showHealthScorePanel s = false) := by
  constructor
  · simp [showHealthScorePanel, Option.isSome_iff_ne_none]
  · rintro (h | h | h) <;> simp [showHealthScorePanel, h]

/-- C9 witness: the panel shows for a completed scan with a score and not
for a running scan, via `health_score_panel_guard`. -/
theorem health_score_panel_guard_witness :
    showHealthScorePanel completedScan = true ∧
    showHealthScorePanel runningScan = false := by
  refine ⟨?_, ?_⟩
  · exact (health_score_panel_guard completedScan).1.mpr ⟨by decide, rfl⟩
  · exact (health_score_panel_guard runningScan).2 (Or.inr (Or.inl rfl))

/-- C1: the polling effect installs a 2000 ms re-fetch interval exactly
while the loaded scan's status is neither COMPLETED nor FAILED; once the
status is COMPLETED or FAILED (and while no scan is loaded) no interval is
installed, and no period other than 2000 ms is ever used. -/
theorem polling_terminal_states_only (s : Scan) :
    (pollingIntervalMs (some s) = some 2000 ↔
      s.status ≠ "COMPLETED" ∧ s.status ≠ "FAILED") ∧
    (pollingIntervalMs (some s) = none ↔
      s.status = "COMPLETED" ∨ s.status = "FAILED") ∧
    pollingIntervalMs none = none ∧
    (∀ o : Option Scan, pollingIntervalMs o = none ∨
      pollingIntervalMs o = some 2000) := by
  refine ⟨?_, ?_, rfl, ?_⟩
  · by_cases h : s.status = "COMPLETED" ∨ s.status = "FAILED"
    · simp [pollingIntervalMs, h]
      tauto
    · simp [pollingIntervalMs, h]
      tauto
  · by_cases h : s.status = "COMPLETED" ∨ s.status = "FAILED"
    · simp [pollingIntervalMs, h]
    · simp [pollingIntervalMs, h]
  · intro o
    cases o with
    | none => exact Or.inl rfl
    | some sc =>
      by_cases h : sc.status = "COMPLETED" ∨ sc.status = "FAILED"
      · exact Or.inl (by simp [pollingIntervalMs, h])
      · exact Or.inr (by simp [pollingIntervalMs, h])

/-- C1 witness: a running scan is polled at 2000 ms and a completed scan
installs no interval, via `polling_terminal_states_only`. -/
theorem polling_terminal_states_only_witness :
    pollingIntervalMs (some runningScan) = some 2000 ∧
    pollingIntervalMs (some completedScan) = none := by
  refine ⟨?_, ?_⟩
  · exact (polling_terminal_states_only runningScan).1.mpr
      ⟨by decide, by decide⟩
  · exact (polling_terminal_states_only completedScan).2.1.mpr (Or.inl rfl)

/-- C2: the grade rendering is total and single-valued: for every grade
value `getGradeDescription` returns one of the five pairwise-distinct
descriptors (A=Excellent, B=Good, C=Fair, D=Poor, F=Critical) and
`getGradeColor` one of five pairwise-distinct color classes, with the exact
mapping on the five keys; every grade outside {A,B,C,D,F}, including
`null`/`undefined`, gets the F descriptor and F color. -/
theorem grade_rendering_total (g : Option String) :
    (getGradeDescription g ∈
      ([⟨"Excellent", "Outstanding code quality", "🎯"⟩,
        ⟨"Good", "Solid code quality", "✨"⟩,
        ⟨"Fair", "Needs improvement", "👍"⟩,
        ⟨"Poor", "Significant issues", "⚠️"⟩,
        ⟨"Critical", "Urgent action needed", "🚨"⟩] : List GradeInfo) ∧
     getGradeColor g ∈
      (["text-green-400 border-green-500/50 bg-green-500/10",
        "text-blue-400 border-blue-500/50 bg-blue-500/10",
        "text-yellow-400 border-yellow-500/50 bg-yellow-500/10",
        "text-orange-400 border-orange-500/50 bg-orange-500/10",
        "text-red-400 border-red-500/50 bg-red-500/10"] : List String)) ∧
    (([⟨"Excellent", "Outstanding code quality", "🎯"⟩,
       ⟨"Good", "Solid code quality", "✨"⟩,
       ⟨"Fair", "Needs improvement", "👍"⟩,
       ⟨"Poor", "Significant issues", "⚠️"⟩,
       ⟨"Critical", "Urgent action needed", "🚨"⟩] : List GradeInfo).Nodup ∧
     (["text-green-400 border-green-500/50 bg-green-500/10",
       "text-blue-400 border-blue-500/50 bg-blue-500/10",
       "text-yellow-400 border-yellow-500/50 bg-yellow-500/10",
       "text-orange-400 border-orange-500/50 bg-orange-500/10",
       "text-red-400 border-red-500/50 bg-red-500/10"] : List String).Nodup) ∧
    (getGradeDescription (some "A")
        = ⟨"Excellent", "Outstanding code quality", "🎯"⟩ ∧
     getGradeDescription (some "B") = ⟨"Good", "Solid code quality", "✨"⟩ ∧
     getGradeDescription (some "C") = ⟨"Fair", "Needs improvement", "👍"⟩ ∧
     getGradeDescription (some "D") = ⟨"Poor", "Significant issues", "⚠️"⟩ ∧
     getGradeDescription (some "F")
        = ⟨"Critical", "Urgent action needed", "🚨"⟩) ∧
    (g ∉ ([some "A", some "B", some "C", some "D", some "F"] :
        List (Option String)) →
      getGradeDescription g = ⟨"Critical", "Urgent action needed", "🚨"⟩ ∧
      getGradeColor g = "text-red-400 border-red-500/50 bg-red-500/10") := by
  refine ⟨?_, ⟨by decide, by decide⟩, by decide, ?_⟩
  · cases g with
    | none => exact ⟨by decide, by decide⟩
    | some s =>
      by_cases hA : s = "A"
      · subst hA; exact ⟨by decide, by decide⟩
      by_cases hB : s = "B"
      · subst hB; exact ⟨by decide, by decide⟩
      by_cases hC : s = "C"
      · subst hC; exact ⟨by decide, by decide⟩
      by_cases hD : s = "D"
      · subst hD; exact ⟨by decide, by decide⟩
      by_cases hF : s = "F"
      · subst hF; exact ⟨by decide, by decide⟩
      constructor
      · simp [getGradeDescription, hA, hB, hC, hD, hF]
      · simp [getGradeColor, hA, hB, hC, hD, hF]
  · intro hg
    cases g with
    | none => exact ⟨rfl, rfl⟩
    | some s =>
      simp only [List.mem_cons, List.not_mem_nil, or_false, not_or,
        Option.some.injEq] at hg
      obtain ⟨hA, hB, hC, hD, hF⟩ := hg
      constructor
      · simp [getGradeDescription, hA, hB, hC, hD, hF]
      · simp [getGradeColor, hA, hB, hC, hD, hF]

/-- C2 witness: a grade outside the five keys falls back to the F
descriptor and color, via `grade_rendering_total`. -/
theorem grade_rendering_total_witness :
    getGradeDescription (some "E")
      = ⟨"Critical", "Urgent action needed", "🚨"⟩ ∧
    getGradeColor (some "E")
      = "text-red-400 border-red-500/50 bg-red-500/10" :=
  (grade_rendering_total (some "E")).2.2.2 (by decide)

/-- C4: membership in `filteredVulnerabilities` is exactly the conjunction
of the severity, tool and search conditions; with all three filters at
their defaults the filtered list equals the scan's full vulnerability list,
and the filtered list is always an order-preserving sublist of it. -/
theorem filtered_vulnerabilities_characterization (s : Scan)
    (fs ft q : String) :
    (∀ v : Vulnerability,
      v ∈ filteredVulnerabilities (some s) fs ft q ↔
        v ∈ s.vulnerabilities.getD [] ∧
        (fs = "ALL" ∨ v.severity = fs) ∧
        (ft = "ALL" ∨ v.tool = ft) ∧
        (q = "" ∨
          jsIncludes (jsToLower v.vulnerability_type) (jsToLower q) = true ∨
          jsIncludes (jsToLower v.file_path) (jsToLower q) = true ∨
          jsIncludes (jsToLower v.description) (jsToLower q) = true)) ∧
    filteredVulnerabilities (some s) "ALL" "ALL" ""
      = s.vulnerabilities.getD [] ∧
    List.Sublist (filteredVulnerabilities (some s) fs ft q)
      (s.vulnerabilities.getD []) := by
  cases hv : s.vulnerabilities with
  | none =>
    refine ⟨?_, ?_, ?_⟩ <;> simp [filteredVulnerabilities, hv]
  | some vs =>
    refine ⟨?_, ?_, ?_⟩
    · intro v
      simp only [filteredVulnerabilities, hv, Option.getD_some,
        List.mem_filter, vulnMatches, Bool.and_eq_true, Bool.or_eq_true,
        beq_iff_eq]
      tauto
    · simp only [filteredVulnerabilities, hv, Option.getD_some]
      apply List.filter_eq_self.mpr
      intro v hvv
      simp [vulnMatches]
    · simp only [filteredVulnerabilities, hv, Option.getD_some]
      exact List.filter_sublist vs

/-- C4 witness: with the default filters the sample completed scan's list
is returned whole, via `filtered_vulnerabilities_characterization`. -/
theorem filtered_vulnerabilities_witness :
    filteredVulnerabilities (some completedScan) "ALL" "ALL" ""
      = [sampleVuln, sampleVulnLow] := by
  have h :=
    (filtered_vulnerabilities_characterization completedScan "ALL" "ALL" "").2.1
  exact h.trans (by decide)

/-- Lemma: `jsSevCount` agrees with the specification-side severity count. -/
theorem jsSevCount_eq_countSeverity (vulns : Option (List Vulnerability))
    (sev : String) : jsSevCount vulns sev = countSeverity vulns sev := by
  cases vulns with
  | none => rfl
  | some vs =>
    simp only [jsSevCount, countSeverity, Option.getD_some,
      List.countP_eq_length_filter]
    congr 1

/-- C5: in the exported scan-summary CSV the Critical, High, Medium and Low
rows equal the number of the scan's vulnerabilities with exactly that
severity (0 when the list is absent), and the Total Issues row equals the
scan's `total_issues` field (0 when absent). -/
theorem export_scan_summary_rows (fmt : String → String) (s : Scan) :
    (exportScanSummaryData fmt s).get? 11 =
      some ["Critical", toString (countSeverity s.vulnerabilities "CRITICAL")] ∧
    (exportScanSummaryData fmt s).get? 12 =
      some ["High", toString (countSeverity s.vulnerabilities "HIGH")] ∧
    (exportScanSummaryData fmt s).get? 13 =
      some ["Medium", toString (countSeverity s.vulnerabilities "MEDIUM")] ∧
    (exportScanSummaryData fmt s).get? 14 =
      some ["Low", toString (countSeverity s.vulnerabilities "LOW")] ∧
    (exportScanSummaryData fmt s).get? 8 =
      some ["Total Issues", toString (s.total_issues.getD 0)] := by
  refine ⟨?_, ?_, ?_, ?_, ?_⟩
  · rw [show (exportScanSummaryData fmt s).get? 11
        = some ["Critical",
            toString (jsSevCount s.vulnerabilities "CRITICAL")] from rfl,
      jsSevCount_eq_countSeverity]
  · rw [show (exportScanSummaryData fmt s).get? 12
        = some ["High", toString (jsSevCount s.vulnerabilities "HIGH")] from rfl,
      jsSevCount_eq_countSeverity]
  · rw [show (exportScanSummaryData fmt s).get? 13
        = some ["Medium",
            toString (jsSevCount s.vulnerabilities "MEDIUM")] from rfl,
      jsSevCount_eq_countSeverity]
  · rw [show (exportScanSummaryData fmt s).get? 14
        = some ["Low", toString (jsSevCount s.vulnerabilities "LOW")] from rfl,
      jsSevCount_eq_countSeverity]
  · have h8 : (exportScanSummaryData fmt s).get? 8
        = some ["Total Issues", toString (match s.total_issues with
            | some t => t
            | none => 0)] := rfl
    rw [h8]
    cases s.total_issues <;> rfl

/-- C5 witness: concrete rows of the sample completed scan's summary CSV,
via `export_scan_summary_rows`. -/
theorem export_scan_summary_rows_witness :
    (exportScanSummaryData (fun d => d) completedScan).get? 11 =
      some ["Critical", "0"] ∧
    (exportScanSummaryData (fun d => d) completedScan).get? 14 =
      some ["Low", "1"] ∧
    (exportScanSummaryData (fun d => d) completedScan).get? 8 =
      some ["Total Issues", "2"] := by
  have h := export_scan_summary_rows (fun d => d) completedScan
  exact ⟨h.1.trans (by decide), h.2.2.2.1.trans (by decide),
    h.2.2.2.2.trans (by decide)⟩

/-- C6: when the stored `ai_suggestions` text is present (non-empty) the
action displays it with `cached = true` and makes no request; when it is
absent the action issues a POST to `/scans/{id}/ai-suggestions` with a
60000 ms timeout — overriding the client's 30000 ms default — and then
re-fetches the scan. -/
theorem ai_suggestions_flow (s : Scan) (id : String) (ok : Bool) :
    (jsTruthyStr s.ai_suggestions = true →
      getAISuggestionsTrace s id ok =
        [AIAction.display true (s.ai_suggestions.getD "")] ∧
      ∀ p t, AIAction.post p t ∉ getAISuggestionsTrace s id ok) ∧
    (jsTruthyStr s.ai_suggestions = false →
      (getAISuggestionsTrace s id ok).get? 0 =
        some (AIAction.post ("/scans/" ++ id ++ "/ai-suggestions") 60000) ∧
      (ok = true → getAISuggestionsTrace s id ok =
        [AIAction.post ("/scans/" ++ id ++ "/ai-suggestions") 60000,
         AIAction.refetchScan id])) ∧
    aiSuggestionsTimeoutMs = 60000 ∧ apiDefaultTimeoutMs = 30000 ∧
    aiSuggestionsTimeoutMs ≠ apiDefaultTimeoutMs := by
  refine ⟨?_, ?_, rfl, rfl, by decide⟩
  · intro h
    constructor
    · simp [getAISuggestionsTrace, h]
    · intro p t
      simp [getAISuggestionsTrace, h]
  · intro h
    constructor
    · cases ok <;>
        simp [getAISuggestionsTrace, h, aiSuggestionsPath,
          aiSuggestionsTimeoutMs]
    · intro hok
      subst hok
      simp [getAISuggestionsTrace, h, aiSuggestionsPath,
        aiSuggestionsTimeoutMs]

/-- C6 witness: the sample completed scan (cached text present) only
displays, and the sample running scan (no stored text) posts then
re-fetches, via `ai_suggestions_flow`. -/
theorem ai_suggestions_flow_witness :
    getAISuggestionsTrace completedScan "2" true =
      [AIAction.display true "Fix the injection"] ∧
    getAISuggestionsTrace runningScan "1" true =
      [AIAction.post "/scans/1/ai-suggestions" 60000,
       AIAction.refetchScan "1"] := by
  have h1 := (ai_suggestions_flow completedScan "2" true).1 (by decide)
  have h2 := ((ai_suggestions_flow runningScan "1" true).2.1 (by decide)).2 rfl
  exact ⟨h1.1.trans (by decide), h2.trans (by decide)⟩

/-- C10: a request that fails without any HTTP response is never retried:
`retryRequest` rejects it immediately (its predicate needs a response
status ≥ 500) and the response interceptor therefore rejects it with zero
re-issued requests, whatever the error code and retry count. -/
theorem responseless_never_retried (e : AxiosError)
    (h : e.response = none) :
    retryRequest e = RetryDecision.reject ∧
    handleResponseError e = RetryDecision.reject := by
  have hs : shouldRetry e = false := by
    simp [shouldRetry, h]
  have hr : retryRequest e = RetryDecision.reject := by
    simp [retryRequest, hs]
  refine ⟨hr, ?_⟩
  unfold handleResponseError
  split
  · exact hr
  · split
    · exact hr
    · rfl

/-- C10 witness: a concrete timeout error (code ECONNABORTED, no response)
is rejected, via `responseless_never_retried`. -/
theorem responseless_never_retried_witness :
    retryRequest ⟨⟨0⟩, none, some "ECONNABORTED"⟩ = RetryDecision.reject ∧
    handleResponseError ⟨⟨0⟩, none, some "ERR_NETWORK"⟩
      = RetryDecision.reject :=
  ⟨(responseless_never_retried ⟨⟨0⟩, none, some "ECONNABORTED"⟩ rfl).1,
   (responseless_never_retried ⟨⟨0⟩, none, some "ERR_NETWORK"⟩ rfl).2⟩

/-- C3 counterexample: a first failure carrying an HTTP 500 response is not
rejected to the caller — the interceptor re-issues it as retry number 1
after a 1000 ms backoff delay. -/
theorem retry_on_500_counterexample :
    handleResponseError ⟨⟨0⟩, some ⟨500⟩, none⟩
      = RetryDecision.retry 1 1000 ∧
    handleResponseError ⟨⟨0⟩, some ⟨500⟩, none⟩ ≠ RetryDecision.reject := by
  decide

/-- C3 (amended): the API client does contain a retry/backoff mechanism,
but only for server errors: a failure with response status ≥ 500 and ≠ 501
and fewer than `MAX_RETRIES` prior attempts is re-issued with an
exponential backoff of `RETRY_DELAY * 2 ^ retryCount` ms; every other
failure — no response, status < 500, status 501, or retry budget
exhausted — is rejected to the caller without re-issue. -/
theorem retry_backoff_characterization (e : AxiosError) :
    (∀ r : HttpResponse, e.response = some r → 500 ≤ r.status →
      r.status ≠ 501 → e.config.retryCount < MAX_RETRIES →
      handleResponseError e =
        RetryDecision.retry (e.config.retryCount + 1)
          (RETRY_DELAY * 2 ^ e.config.retryCount)) ∧
    (e.response = none → handleResponseError e = RetryDecision.reject) ∧
    (∀ r : HttpResponse, e.response = some r → r.status < 500 →
      handleResponseError e = RetryDecision.reject) ∧
    (∀ r : HttpResponse, e.response = some r → r.status = 501 →
      handleResponseError e = RetryDecision.reject) ∧
    (MAX_RETRIES ≤ e.config.retryCount →
      handleResponseError e = RetryDecision.reject) := by
  refine ⟨?_, ?_, ?_, ?_, ?_⟩
  · intro r hr h500 h501 hcount
    have hs : shouldRetry e = true := by
      simp [shouldRetry, hr, h500, h501, hcount]
    simp [handleResponseError, hr, respStatusGe500, h500, retryRequest, hs]
  · intro h
    have hs : shouldRetry e = false := by simp [shouldRetry, h]
    have hr : retryRequest e = RetryDecision.reject := by
      simp [retryRequest, hs]
    unfold handleResponseError
    split
    · exact hr
    · split
      · exact hr
      · rfl
  · intro r hr hlt
    have hfalse : respStatusGe500 e = false := by
      simp [respStatusGe500, hr]
      omega
    simp [handleResponseError, hr, hfalse]
  · intro r hr h501
    have hs : shouldRetry e = false := by
      simp [shouldRetry, hr, h501]
    have hrr : retryRequest e = RetryDecision.reject := by
      simp [retryRequest, hs]
    unfold handleResponseError
    split
    · exact hrr
    · split
      · exact hrr
      · rfl
  · intro hcount
    have hs : shouldRetry e = false := by
      simp [shouldRetry]
      omega
    have hrr : retryRequest e = RetryDecision.reject := by
      simp [retryRequest, hs]
    unfold handleResponseError
    split
    · exact hrr
    · split
      · exact hrr
      · rfl

/-- C3 witness: a third consecutive 503 failure is re-issued as retry 3
after a 4000 ms backoff, and a 404 failure is rejected at once, via
`retry_backoff_characterization`. -/
theorem retry_backoff_witness :
    handleResponseError ⟨⟨2⟩, some ⟨503⟩, none⟩
      = RetryDecision.retry 3 4000 ∧
    handleResponseError ⟨⟨0⟩, some ⟨404⟩, none⟩ = RetryDecision.reject := by
  have h1 := (retry_backoff_characterization ⟨⟨2⟩, some ⟨503⟩, none⟩).1
    ⟨503⟩ rfl (by decide) (by decide) (by decide)
  have h2 := (retry_backoff_characterization ⟨⟨0⟩, some ⟨404⟩, none⟩).2.2.1
    ⟨404⟩ rfl (by decide)
  exact ⟨h1.trans (by decide), h2⟩

end Asura
